import Mathlib

/-!
Shallow embedding of the "chooser" worker (v1 API handler, database schema and
documented retention cron) and proofs about the claims of its specification.

The relational store (Cloudflare D1 / SQLite) is modelled as explicit lists of
rows; `CURRENT_TIMESTAMP` is modelled as a `Nat` parameter `now` passed to each
handler; `AUTOINCREMENT` ids are modelled with counters carried in the state.
JavaScript falsiness of required string fields is modelled by the empty string,
of the numeric `option_id` by `0`, and of optional values by `Option`.
-/

namespace Chooser

/-- Row of `chooser_templates`. -/
structure TemplateRow where
  slug : String
  name : String
  description : Option String
  templateData : String
  deriving Repr, DecidableEq

/-- Row of `chooser_instances`.  `selection_labels` is stored as a JSON array;
it is modelled already parsed, as a `List String`. -/
structure InstanceRow where
  id : String
  adminId : String
  title : String
  description : Option String
  templateData : String
  selectionLabels : List String
  published : Bool
  createdAt : Nat
  updatedAt : Nat
  viewedAt : Nat
  deriving Repr, DecidableEq

/-- Row of `chooser_options`. -/
structure OptionRow where
  id : Nat
  chooserId : String
  value : String
  order : Int
  metadata : Option String
  deriving Repr, DecidableEq

/-- Row of `participant_selections`. -/
structure SelectionRow where
  id : Nat
  chooserId : String
  optionId : Nat
  participantName : String
  selectionValue : String
  createdAt : Nat
  updatedAt : Nat
  deriving Repr, DecidableEq

/-- The whole v1 database.  The counters model SQLite rowid autoincrement. -/
structure DB where
  templates : List TemplateRow
  instances : List InstanceRow
  options : List OptionRow
  selections : List SelectionRow
  nextOptionId : Nat
  nextSelectionId : Nat
  deriving Repr, DecidableEq

/-- One entry of the `options` array of an `UpdateOptionsRequest`.
`order === undefined` is modelled by `order = none`; a falsy `value` by `""`. -/
structure OptReq where
  value : String
  order : Option Int
  metadata : Option String
  deriving Repr, DecidableEq

/-- One entry of the `selections` array of a `SubmitSelectionsRequest`.
A falsy `option_id` is modelled by `0`, a falsy `selection_value` by `""`. -/
structure SelReq where
  optionId : Nat
  selectionValue : String
  deriving Repr, DecidableEq

/-- The `options` field of a GET chooser response. -/
structure OptionView where
  id : Nat
  value : String
  order : Int
  metadata : Option String
  deriving Repr, DecidableEq

/-- Body of a successful GET `/choosers/:id` response: exactly the fields the
handler selects and returns (note: no admin token field exists here). -/
structure ChooserView where
  id : String
  title : String
  description : Option String
  templateData : String
  selectionLabels : List String
  published : Bool
  createdAt : Nat
  options : List OptionView
  deriving Repr, DecidableEq

/-- Per-option entry in a results response; `summary` models the JS
`Record<string, number>` as an insertion-ordered association list. -/
structure OptionResult where
  id : Nat
  value : String
  order : Int
  metadata : Option String
  summary : List (String × Nat)
  selections : List (String × String)
  deriving Repr, DecidableEq

/-- Body of a successful GET `/choosers/:id/results` response. -/
structure ResultsView where
  chooserId : String
  title : String
  published : Bool
  selectionLabels : List String
  options : List OptionResult
  participants : List String
  deriving Repr, DecidableEq

/-- HTTP response of the v1 handler, one constructor per JSON response shape;
`err` carries the HTTP status (400/403/404/500) and the message string. -/
inductive V1Resp where
  | createOk (instanceId adminId participantUrl adminUrl : String) (published : Bool)
  | optionsOk (optionsCount : Nat)
  | publishOk (message : String) (published : Bool)
  | selectionsOk (participantName : String) (selectionsCount : Nat)
  | chooserOk (body : ChooserView)
  | resultsOk (body : ResultsView)
  | err (status : Nat) (message : String)
  deriving Repr, DecidableEq

/-- `generateId`: each random byte indexes into the 36 lowercase alphanumeric
characters (`chars[byte % chars.length]`).  The random bytes are a parameter. -/
def idChars : List Char := "abcdefghijklmnopqrstuvwxyz0123456789".toList

/-- `generateId` applied to an explicit list of random bytes. -/
def generateId (bytes : List Nat) : String :=
  String.mk (bytes.map (fun b => idChars.getD (b % idChars.length) 'a'))

/-- `UPDATE chooser_instances SET viewed_at = CURRENT_TIMESTAMP WHERE id = ?`. -/
def bumpViewed (iid : String) (now : Nat) (db : DB) : DB :=
  { db with instances :=
      db.instances.map (fun r => if r.id = iid then { r with viewedAt := now } else r) }

/-- `UPDATE chooser_instances SET updated_at = CURRENT_TIMESTAMP WHERE id = ?`. -/
def bumpUpdated (iid : String) (now : Nat) (db : DB) : DB :=
  { db with instances :=
      db.instances.map (fun r => if r.id = iid then { r with updatedAt := now } else r) }

/-- JS `description || null`: the empty string is falsy and becomes null. -/
def descOrNull (d : Option String) : Option String :=
  match d with
  | some s => if s = "" then none else some s
  | none => none

/-- JS `selection_labels || ['no', 'ok', 'ideal']`: only an absent (or null)
field is falsy; an explicit empty array is truthy and kept. -/
def labelsOrDefault (l : Option (List String)) : List String :=
  match l with
  | some labels => labels
  | none => ["no", "ok", "ideal"]

/-- POST `/choosers` — create a new chooser.  `instBytes`/`adminBytes` are the
random bytes consumed by `generateId(8)` / `generateId(16)`.  The `INSERT` is
rejected (caught as a 500, no row written) when the generated public id
collides with the `id` primary key or the admin token with the `admin_id`
unique constraint. -/
def createChooser (templateSlug title : String) (description : Option String)
    (selectionLabels : Option (List String)) (instBytes adminBytes : List Nat)
    (now : Nat) (db : DB) : V1Resp × DB :=
  if templateSlug = "" ∨ title = "" then
    (.err 400 "Missing required fields: template_slug, title", db)
  else
    match db.templates.find? (fun t => t.slug = templateSlug) with
    | none => (.err 404 ("Template not found: " ++ templateSlug), db)
    | some template =>
      let instanceId := generateId instBytes
      let adminId := generateId adminBytes
      let labels := labelsOrDefault selectionLabels
      if db.instances.any (fun r => r.id = instanceId ∨ r.adminId = adminId) then
        (.err 500 "Failed to create chooser: UNIQUE constraint failed", db)
      else
        let row : InstanceRow :=
          { id := instanceId, adminId := adminId, title := title,
            description := descOrNull description,
            templateData := template.templateData, selectionLabels := labels,
            published := false, createdAt := now, updatedAt := now, viewedAt := now }
        (.createOk instanceId adminId ("/a/v1/" ++ instanceId)
            ("/a/v1/admin/" ++ instanceId ++ "/" ++ adminId) false,
          { db with instances := db.instances ++ [row] })

/-- `DELETE FROM chooser_options WHERE chooser_id = ?`, with the schema's
`ON DELETE CASCADE` from `participant_selections.option_id` removing the
selections that referenced the deleted options. -/
def deleteOptionsCascade (iid : String) (db : DB) : DB :=
  let deletedIds := (db.options.filter (fun o => o.chooserId = iid)).map (fun o => o.id)
  { db with
    options := db.options.filter (fun o => ¬ o.chooserId = iid),
    selections := db.selections.filter (fun s => ¬ deletedIds.contains s.optionId) }

/-- The per-option validate-and-insert loop of the PUT options handler.  It
returns `some` error response at the first entry lacking a `value` or an
`order`, leaving the rows inserted so far in place. -/
def insertOptionsLoop (iid : String) (opts : List OptReq) (db : DB) :
    Option V1Resp × DB :=
  match opts with
  | [] => (none, db)
  | o :: rest =>
    if o.value = "" ∨ o.order = none then
      (some (.err 400 "Each option must have \"value\" and \"order\" fields"), db)
    else
      insertOptionsLoop iid rest
        { db with
          options := db.options ++
            [{ id := db.nextOptionId, chooserId := iid, value := o.value,
               order := o.order.getD 0, metadata := o.metadata }],
          nextOptionId := db.nextOptionId + 1 }

/-- PUT `/choosers/:id/options` — replace all options.  Mirrors the handler:
required-field check, admin check, then delete of the existing options,
then the validate-and-insert loop, then the `updated_at` bump. -/
def replaceAllOptions (iid adminId : String) (opts : Option (List OptReq))
    (now : Nat) (db : DB) : V1Resp × DB :=
  if adminId = "" ∨ opts = none then
    (.err 400 "Missing required fields: admin_id, options (array)", db)
  else
    match db.instances.find? (fun r => r.id = iid) with
    | none => (.err 404 "Chooser not found", db)
    | some chooser =>
      if ¬ chooser.adminId = adminId then (.err 403 "Invalid admin_id", db)
      else
        let db1 := deleteOptionsCascade iid db
        match insertOptionsLoop iid (opts.getD []) db1 with
        | (some resp, db2) => (resp, db2)
        | (none, db2) => (.optionsOk (opts.getD []).length, bumpUpdated iid now db2)

/-- PUT `/choosers/:id/publish`. -/
def publishChooser (iid adminId : String) (now : Nat) (db : DB) : V1Resp × DB :=
  if adminId = "" then (.err 400 "Missing required field: admin_id", db)
  else
    match db.instances.find? (fun r => r.id = iid) with
    | none => (.err 404 "Chooser not found", db)
    | some chooser =>
      if ¬ chooser.adminId = adminId then (.err 403 "Invalid admin_id", db)
      else if chooser.published then
        (.publishOk "Chooser is already published" true, db)
      else
        (.publishOk "Chooser published successfully" true,
          { db with instances := db.instances.map (fun r =>
              if r.id = iid then { r with published := true, updatedAt := now } else r) })

/-- The per-selection validate-and-upsert loop of the POST selections handler.
It returns `some` error response at the first invalid pair, leaving the rows
written so far in place. -/
def submitLoop (iid pname : String) (labels : List String) (now : Nat)
    (sels : List SelReq) (db : DB) : Option V1Resp × DB :=
  match sels with
  | [] => (none, db)
  | s :: rest =>
    if s.optionId = 0 ∨ s.selectionValue = "" then
      (some (.err 400 "Each selection must have \"option_id\" and \"selection_value\" fields"), db)
    else if ¬ labels.contains s.selectionValue then
      (some (.err 400 ("Invalid selection_value: " ++ s.selectionValue)), db)
    else if ¬ db.options.any (fun o => o.id = s.optionId ∧ o.chooserId = iid) then
      (some (.err 400 "Invalid option_id: does not belong to this chooser"), db)
    else
      match db.selections.find? (fun t =>
          t.chooserId = iid ∧ t.optionId = s.optionId ∧ t.participantName = pname) with
      | some existing =>
        submitLoop iid pname labels now rest
          { db with selections := db.selections.map (fun t =>
              if t.id = existing.id then
                { t with selectionValue := s.selectionValue, updatedAt := now }
              else t) }
      | none =>
        submitLoop iid pname labels now rest
          { db with
            selections := db.selections ++
              [{ id := db.nextSelectionId, chooserId := iid, optionId := s.optionId,
                 participantName := pname, selectionValue := s.selectionValue,
                 createdAt := now, updatedAt := now }],
            nextSelectionId := db.nextSelectionId + 1 }

/-- POST `/choosers/:id/selections`. -/
def submitSelections (iid pname : String) (sels : Option (List SelReq))
    (now : Nat) (db : DB) : V1Resp × DB :=
  if pname = "" ∨ sels = none then
    (.err 400 "Missing required fields: participant_name, selections (array)", db)
  else
    match db.instances.find? (fun r => r.id = iid) with
    | none => (.err 404 "Chooser not found", db)
    | some chooser =>
      if ¬ chooser.published then (.err 403 "Chooser is not published yet", db)
      else
        match submitLoop iid pname chooser.selectionLabels now (sels.getD []) db with
        | (some resp, db2) => (resp, db2)
        | (none, db2) =>
          (.selectionsOk pname (sels.getD []).length, bumpViewed iid now db2)

/-- JS object assignment `m[k] = v`: overwrite an existing key in place,
otherwise append the new key. -/
def recSet (m : List (String × Nat)) (k : String) (v : Nat) : List (String × Nat) :=
  if (m.find? (fun p => p.1 = k)).isSome then
    m.map (fun p => if p.1 = k then (k, v) else p)
  else m ++ [(k, v)]

/-- JS read `m[k] || 0`. -/
def recGet (m : List (String × Nat)) (k : String) : Nat :=
  ((m.find? (fun p => p.1 = k)).map Prod.snd).getD 0

/-- `summary[s.selection_value] = (summary[s.selection_value] || 0) + 1`. -/
def recIncr (m : List (String × Nat)) (k : String) : List (String × Nat) :=
  recSet m k (recGet m k + 1)

/-- `selectionLabels.forEach(label => summary[label] = 0)`. -/
def initSummary (labels : List String) : List (String × Nat) :=
  labels.foldl (fun m l => recSet m l 0) []

/-- The tally for one option: zero for every label, then one increment per
selection stored for that option. -/
def buildSummary (labels : List String) (sels : List SelectionRow) :
    List (String × Nat) :=
  sels.foldl (fun m s => recIncr m s.selectionValue) (initSummary labels)

/-- GET `/choosers/:id/results`. -/
def getResults (iid : String) (now : Nat) (db : DB) : V1Resp × DB :=
  match db.instances.find? (fun r => r.id = iid) with
  | none => (.err 404 "Chooser not found", db)
  | some chooser =>
    let options := List.insertionSort (fun a b => a.order ≤ b.order)
      (db.options.filter (fun o => o.chooserId = iid))
    let sels := List.insertionSort (fun a b => a.participantName ≤ b.participantName)
      (db.selections.filter (fun s => s.chooserId = iid))
    let optionsWithResults := options.map (fun o =>
      let optionSelections := sels.filter (fun s => s.optionId = o.id)
      { id := o.id, value := o.value, order := o.order, metadata := o.metadata,
        summary := buildSummary chooser.selectionLabels optionSelections,
        selections := optionSelections.map (fun s =>
          (s.participantName, s.selectionValue)) : OptionResult })
    let participants :=
      List.insertionSort (fun a b => a ≤ b) (sels.map (fun s => s.participantName)).dedup
    (.resultsOk
      { chooserId := chooser.id, title := chooser.title,
        published := chooser.published, selectionLabels := chooser.selectionLabels,
        options := optionsWithResults, participants := participants },
      bumpViewed iid now db)

/-- GET `/choosers/:id`. -/
def getChooser (iid : String) (now : Nat) (db : DB) : V1Resp × DB :=
  match db.instances.find? (fun r => r.id = iid) with
  | none => (.err 404 "Chooser not found", db)
  | some chooser =>
    let db1 := bumpViewed iid now db
    let options := List.insertionSort (fun a b => a.order ≤ b.order)
      (db1.options.filter (fun o => o.chooserId = iid))
    (.chooserOk
      { id := chooser.id, title := chooser.title, description := chooser.description,
        templateData := chooser.templateData,
        selectionLabels := chooser.selectionLabels,
        published := chooser.published, createdAt := chooser.createdAt,
        options := options.map (fun o =>
          { id := o.id, value := o.value, order := o.order, metadata := o.metadata }) },
      db1)

/-- Eligibility for the retention sweeper, from the cron SQL documented in the
database design notes: `published = 0 AND created_at < datetime('now','-24
hours')`, or `viewed_at < datetime('now','-180 days')`.  Times in seconds. -/
def sweepEligible (now : Nat) (r : InstanceRow) : Bool :=
  (r.published = false ∧ r.createdAt + 24 * 3600 < now) ∨
    r.viewedAt + 180 * 86400 < now

/-- The retention sweeper: both documented `DELETE` statements, with the
schema's `ON DELETE CASCADE` removing the options and selections of deleted
instances (and the selections of deleted options). -/
def retentionSweep (now : Nat) (db : DB) : DB :=
  let deletedIds :=
    (db.instances.filter (fun r => sweepEligible now r)).map (fun r => r.id)
  let deletedOptionIds :=
    (db.options.filter (fun o => deletedIds.contains o.chooserId)).map (fun o => o.id)
  { db with
    instances := db.instances.filter (fun r => ¬ sweepEligible now r),
    options := db.options.filter (fun o => ¬ deletedIds.contains o.chooserId),
    selections := db.selections.filter (fun s =>
      ¬ deletedIds.contains s.chooserId ∧ ¬ deletedOptionIds.contains s.optionId) }

/-- One API or cron operation together with its request data. -/
inductive Op where
  | createOp (templateSlug title : String) (description : Option String)
      (selectionLabels : Option (List String)) (instBytes adminBytes : List Nat)
  | optionsOp (iid adminId : String) (opts : Option (List OptReq))
  | publishOp (iid adminId : String)
  | selectionsOp (iid pname : String) (sels : Option (List SelReq))
  | resultsOp (iid : String)
  | chooserOp (iid : String)
  | sweepOp
  deriving Repr, DecidableEq

/-- The state transition of one operation. -/
def applyOp (op : Op) (now : Nat) (db : DB) : DB :=
  match op with
  | .createOp slug title d l ib ab => (createChooser slug title d l ib ab now db).2
  | .optionsOp iid a opts => (replaceAllOptions iid a opts now db).2
  | .publishOp iid a => (publishChooser iid a now db).2
  | .selectionsOp iid p sels => (submitSelections iid p sels now db).2
  | .resultsOp iid => (getResults iid now db).2
  | .chooserOp iid => (getChooser iid now db).2
  | .sweepOp => retentionSweep now db

/-- Rewrite every stored admin token through `f`, leaving everything else in
the database unchanged (used to state that participant-facing responses do
not depend on admin tokens). -/
def mapAdminTokens (f : String → String) (db : DB) : DB :=
  { db with instances := db.instances.map (fun r => { r with adminId := f r.adminId }) }

/-! ### Concrete fixtures (small sample database states used by witnesses) -/

/-- A seeded template row. -/
def sampleTemplate : TemplateRow :=
  { slug := "simple_poll", name := "Simple Poll", description := some "quick poll",
    templateData := "tdata" }

/-- A store holding only the seeded template. -/
def emptyDB : DB :=
  { templates := [sampleTemplate], instances := [], options := [], selections := [],
    nextOptionId := 1, nextSelectionId := 1 }

/-- A published instance with admin token `admintok9012345a`. -/
def sampleInstance : InstanceRow :=
  { id := "i1", adminId := "admintok9012345a", title := "Lunch", description := none,
    templateData := "tdata", selectionLabels := ["no", "ok", "ideal"],
    published := true, createdAt := 100, updatedAt := 100, viewedAt := 100 }

/-- The same instance still unpublished. -/
def draftInstance : InstanceRow := { sampleInstance with published := false }

/-- A store with the published instance and two options. -/
def sampleDB : DB :=
  { templates := [sampleTemplate], instances := [sampleInstance],
    options := [{ id := 1, chooserId := "i1", value := "Pizza", order := 0, metadata := none },
                { id := 2, chooserId := "i1", value := "Tacos", order := 1, metadata := none }],
    selections := [], nextOptionId := 3, nextSelectionId := 1 }

/-- The same store with the instance unpublished. -/
def draftDB : DB := { sampleDB with instances := [draftInstance] }

def optReqValid (o : OptReq) : Bool :=
  decide (¬ (o.value = "" ∨ o.order = none))

def mkOptionRows (iid : String) (startId : Nat) : List OptReq → List OptionRow
  | [] => []
  | o :: rest =>
    { id := startId, chooserId := iid, value := o.value, order := o.order.getD 0,
      metadata := o.metadata } :: mkOptionRows iid (startId + 1) rest

def selReqValid (opts : List OptionRow) (iid : String) (labels : List String)
    (s : SelReq) : Bool :=
  decide (¬ (s.optionId = 0 ∨ s.selectionValue = "")) &&
  labels.contains s.selectionValue &&
  opts.any (fun o => o.id = s.optionId ∧ o.chooserId = iid)

/-- Sum of the counts of a summary record. -/
def sumVals (m : List (String × Nat)) : Nat := (m.map (fun p => p.2)).sum

instance : IsTotal OptionRow (fun a b => a.order ≤ b.order) :=
  ⟨fun a b => le_total a.order b.order⟩

instance : IsTrans OptionRow (fun a b => a.order ≤ b.order) :=
  ⟨fun _ _ _ hab hbc => le_trans hab hbc⟩

/-- The sample store with one stored selection (Alice chose "ok" for Pizza). -/
def sampleSelDB : DB :=
  { sampleDB with
    selections := [{ id := 1, chooserId := "i1", optionId := 1,
                     participantName := "Alice", selectionValue := "ok",
                     createdAt := 103, updatedAt := 103 }],
    nextSelectionId := 2 }

/-- The results view the handler computes on `sampleSelDB`. -/
def sampleResultsView : ResultsView :=
  { chooserId := "i1", title := "Lunch", published := true,
    selectionLabels := ["no", "ok", "ideal"],
    options := [
      { id := 1, value := "Pizza", order := 0, metadata := none,
        summary := [("no", 0), ("ok", 1), ("ideal", 0)],
        selections := [("Alice", "ok")] },
      { id := 2, value := "Tacos", order := 1, metadata := none,
        summary := [("no", 0), ("ok", 0), ("ideal", 0)],
        selections := [] }],
    participants := ["Alice"] }

/-! ### Helper lemmas -/

lemma generateId_length (bs : List Nat) : (generateId bs).length = bs.length := by
  simp [generateId, String.length]

lemma getChooser_mapAdminTokens (f : String → String) (iid : String) (now : Nat) (db : DB) :
    (getChooser iid now (mapAdminTokens f db)).1 = (getChooser iid now db).1 := by
  unfold getChooser mapAdminTokens bumpViewed
  simp only [List.find?_map]
  have hcomp : ((fun (r : InstanceRow) => decide (r.id = iid)) ∘
      fun (r : InstanceRow) => { r with adminId := f r.adminId }) =
      fun (r : InstanceRow) => decide (r.id = iid) := rfl
  rw [hcomp]
  cases h : db.instances.find? (fun r => r.id = iid) <;> rfl

lemma getResults_mapAdminTokens (f : String → String) (iid : String) (now : Nat) (db : DB) :
    (getResults iid now (mapAdminTokens f db)).1 = (getResults iid now db).1 := by
  unfold getResults mapAdminTokens bumpViewed
  simp only [List.find?_map]
  have hcomp : ((fun (r : InstanceRow) => decide (r.id = iid)) ∘
      fun (r : InstanceRow) => { r with adminId := f r.adminId }) =
      fun (r : InstanceRow) => decide (r.id = iid) := rfl
  rw [hcomp]
  cases h : db.instances.find? (fun r => r.id = iid) <;> rfl

lemma insertOptionsLoop_instances (iid : String) (l : List OptReq) (db : DB) :
    (insertOptionsLoop iid l db).2.instances = db.instances := by
  induction l generalizing db with
  | nil => rfl
  | cons o rest ih =>
    unfold insertOptionsLoop
    split
    · rfl
    · exact ih _

lemma insertOptionsLoop_selections (iid : String) (l : List OptReq) (db : DB) :
    (insertOptionsLoop iid l db).2.selections = db.selections := by
  induction l generalizing db with
  | nil => rfl
  | cons o rest ih =>
    unfold insertOptionsLoop
    split
    · rfl
    · exact ih _

lemma submitLoop_instances (iid pname : String) (labels : List String) (now : Nat)
    (l : List SelReq) (db : DB) :
    (submitLoop iid pname labels now l db).2.instances = db.instances := by
  induction l generalizing db with
  | nil => rfl
  | cons s rest ih =>
    unfold submitLoop
    split
    · rfl
    · split
      · rfl
      · split
        · rfl
        · split
          · exact ih _
          · exact ih _

lemma submitLoop_options (iid pname : String) (labels : List String) (now : Nat)
    (l : List SelReq) (db : DB) :
    (submitLoop iid pname labels now l db).2.options = db.options := by
  induction l generalizing db with
  | nil => rfl
  | cons s rest ih =>
    unfold submitLoop
    split
    · rfl
    · split
      · rfl
      · split
        · rfl
        · split
          · exact ih _
          · exact ih _

/-! ### Claim theorems -/

/-- C3: for every valid creation request the returned `admin_id` and
`instance_id` are distinct strings (the public id consumes 8 random bytes, the
admin token 16, so their lengths differ), and the participant-facing GET
endpoints (GET `/choosers/:id` and GET `/choosers/:id/results`) return
responses that are identical whatever the stored admin tokens are, so the
admin token appears nowhere in them. -/
theorem c3_admin_token_isolation :
    (∀ (slug title : String) (d : Option String) (l : Option (List String))
        (ib ab : List Nat) (now : Nat) (db : DB) (i a p q : String) (b : Bool),
      ib.length = 8 → ab.length = 16 →
      (createChooser slug title d l ib ab now db).1 = .createOk i a p q b → i ≠ a) ∧
    (∀ (f : String → String) (iid : String) (now : Nat) (db : DB),
      (getChooser iid now (mapAdminTokens f db)).1 = (getChooser iid now db).1 ∧
      (getResults iid now (mapAdminTokens f db)).1 = (getResults iid now db).1) := by
  constructor
  · intro slug title d l ib ab now db i a p q b h8 h16 h
    unfold createChooser at h
    split at h
    · simp at h
    · split at h
      · simp at h
      · dsimp only at h
        split at h
        · simp at h
        · simp only [V1Resp.createOk.injEq] at h
          obtain ⟨hi, ha, -⟩ := h
          intro hia
          have : (generateId ib).length = (generateId ab).length := by rw [hi, ha, hia]
          rw [generateId_length, generateId_length, h8, h16] at this
          exact absurd this (by decide)
  · intro f iid now db
    exact ⟨getChooser_mapAdminTokens f iid now db, getResults_mapAdminTokens f iid now db⟩

/-- C3 witness: concrete instantiation — an 8-byte and a 16-byte random source
give distinct ids, and overwriting the stored admin token of the sample store
leaves the participant-facing GET response unchanged. -/
theorem c3_admin_token_isolation_witness :
    ("abcdefgh" : String) ≠ "abcdefghijklmnop" ∧
    (getChooser "i1" 104 (mapAdminTokens (fun _ => "stolen") sampleDB)).1 =
      (getChooser "i1" 104 sampleDB).1 := by
  constructor
  · exact c3_admin_token_isolation.1 "simple_poll" "Lunch" none none
      [0, 1, 2, 3, 4, 5, 6, 7] [0, 1, 2, 3, 4, 5, 6, 7, 8, 9, 10, 11, 12, 13, 14, 15]
      100 emptyDB _ _ _ _ _ rfl rfl rfl
  · exact (c3_admin_token_isolation.2 (fun _ => "stolen") "i1" 104 sampleDB).1

/-- C7: the retention sweeper deletes exactly the instances that are
unpublished with `created_at` older than 24 hours, or whose `viewed_at` is
older than 180 days (independent of published state); concretely, with time in
seconds, an unpublished instance created 25 hours ago is eligible, one created
23 hours ago is not, a published instance last viewed 181 days ago is
eligible, one last viewed 179 days ago is not. -/
theorem c7_retention_sweeper :
    (∀ (now : Nat) (db : DB) (r : InstanceRow),
      r ∈ (retentionSweep now db).instances ↔
        r ∈ db.instances ∧
          ¬((r.published = false ∧ r.createdAt + 24 * 3600 < now) ∨
            r.viewedAt + 180 * 86400 < now)) ∧
    sweepEligible 20000000000
      { draftInstance with createdAt := 20000000000 - 25 * 3600,
                           viewedAt := 20000000000 } = true ∧
    sweepEligible 20000000000
      { draftInstance with createdAt := 20000000000 - 23 * 3600,
                           viewedAt := 20000000000 } = false ∧
    sweepEligible 20000000000
      { sampleInstance with createdAt := 20000000000,
                            viewedAt := 20000000000 - 181 * 86400 } = true ∧
    sweepEligible 20000000000
      { sampleInstance with createdAt := 20000000000,
                            viewedAt := 20000000000 - 179 * 86400 } = false := by
  refine ⟨?_, by decide, by decide, by decide, by decide⟩
  intro now db r
  simp only [retentionSweep, List.mem_filter, sweepEligible, decide_eq_true_eq]

/-- C10: for every existing instance, a replaceAll call with the correct admin
token and an empty options array succeeds with `options_count` 0, deletes all
previously stored options of the instance (cascading away the selections that
referenced them), inserts nothing, and bumps the instance's `updated_at`; no
published-state check is made, so this holds whether or not the instance is
published. -/
theorem c10_replaceAll_empty_batch :
    ∀ (iid a : String) (now : Nat) (db : DB) (r : InstanceRow),
      db.instances.find? (fun x => x.id = iid) = some r →
      r.adminId = a → a ≠ "" →
      (replaceAllOptions iid a (some []) now db).1 = .optionsOk 0 ∧
      (replaceAllOptions iid a (some []) now db).2.options =
        db.options.filter (fun o => ¬ o.chooserId = iid) ∧
      (replaceAllOptions iid a (some []) now db).2.selections =
        db.selections.filter (fun s =>
          ¬ ((db.options.filter (fun o => o.chooserId = iid)).map
              (fun o => o.id)).contains s.optionId) ∧
      (replaceAllOptions iid a (some []) now db).2.instances =
        db.instances.map (fun x => if x.id = iid then { x with updatedAt := now } else x) := by
  intro iid a now db r hfind hadmin ha
  have hra : replaceAllOptions iid a (some []) now db =
      (.optionsOk 0, bumpUpdated iid now (deleteOptionsCascade iid db)) := by
    unfold replaceAllOptions
    rw [if_neg (by simp [ha]), hfind]
    simp only []
    rw [if_neg (by simp [hadmin])]
    rfl
  rw [hra]
  exact ⟨rfl, rfl, rfl, rfl⟩

/-- C10 witness: the empty replace on the sample store (which is published and
holds two options and one selection) succeeds with count 0 and wipes the
options and the selection rows that referenced them. -/
theorem c10_replaceAll_empty_batch_witness :
    (replaceAllOptions "i1" "admintok9012345a" (some []) 200
      { sampleDB with
        selections := [{ id := 1, chooserId := "i1", optionId := 1,
                         participantName := "Alice", selectionValue := "ok",
                         createdAt := 103, updatedAt := 103 }] }).1 = .optionsOk 0 ∧
    (replaceAllOptions "i1" "admintok9012345a" (some []) 200
      { sampleDB with
        selections := [{ id := 1, chooserId := "i1", optionId := 1,
                         participantName := "Alice", selectionValue := "ok",
                         createdAt := 103, updatedAt := 103 }] }).2.options = [] ∧
    (replaceAllOptions "i1" "admintok9012345a" (some []) 200
      { sampleDB with
        selections := [{ id := 1, chooserId := "i1", optionId := 1,
                         participantName := "Alice", selectionValue := "ok",
                         createdAt := 103, updatedAt := 103 }] }).2.selections = [] := by
  have h := c10_replaceAll_empty_batch "i1" "admintok9012345a" 200
    { sampleDB with
      selections := [{ id := 1, chooserId := "i1", optionId := 1,
                       participantName := "Alice", selectionValue := "ok",
                       createdAt := 103, updatedAt := 103 }] }
    sampleInstance rfl rfl (by decide)
  refine ⟨h.1, ?_, ?_⟩
  · rw [h.2.1]; rfl
  · rw [h.2.2.1]; rfl

lemma pubMono_map {l : List InstanceRow} {g : InstanceRow → InstanceRow}
    (hid : ∀ x, (g x).id = x.id)
    (hpub : ∀ x, (g x).published = false → x.published = false)
    {r' : InstanceRow} (hr' : r' ∈ l.map g) (hp : r'.published = false) :
    ∃ r ∈ l, r.id = r'.id ∧ r.published = false := by
  obtain ⟨x, hx, rfl⟩ := List.mem_map.mp hr'
  exact ⟨x, hx, (hid x).symm, hpub x hp⟩

/-- C8: the `published` flag is monotonic one-way under every operation of
the system (any instance row that is unpublished after an operation was
already unpublished before it, or is the freshly created instance, which
starts unpublished); and publish is idempotent — publishing an
already-published instance with the correct admin token returns success
reporting the already-published state and leaves the store unchanged. -/
theorem c8_published_monotonic_and_publish_idempotent :
    (∀ (op : Op) (now : Nat) (db : DB) (r' : InstanceRow),
      r' ∈ (applyOp op now db).instances → r'.published = false →
      (∃ r ∈ db.instances, r.id = r'.id ∧ r.published = false) ∨
        ∀ r ∈ db.instances, r.id ≠ r'.id) ∧
    (∀ (iid a : String) (now : Nat) (db : DB) (r : InstanceRow),
      db.instances.find? (fun x => x.id = iid) = some r →
      r.adminId = a → a ≠ "" → r.published = true →
      publishChooser iid a now db = (.publishOk "Chooser is already published" true, db)) := by
  constructor
  · intro op now db r' hmem hp
    cases op with
    | createOp slug title d lab ib ab =>
      simp only [applyOp] at hmem
      unfold createChooser at hmem
      split at hmem
      · exact Or.inl ⟨r', hmem, rfl, hp⟩
      · split at hmem
        · exact Or.inl ⟨r', hmem, rfl, hp⟩
        · dsimp only at hmem
          split at hmem
          · exact Or.inl ⟨r', hmem, rfl, hp⟩
          · rename_i hfresh
            rcases List.mem_append.mp hmem with h | h
            · exact Or.inl ⟨r', h, rfl, hp⟩
            · have hrow := List.mem_singleton.mp h
              refine Or.inr fun r hr heq => hfresh ?_
              refine List.any_eq_true.mpr ⟨r, hr, ?_⟩
              subst hrow
              simp only [decide_eq_true_eq]
              exact Or.inl heq
    | optionsOp iid a opts =>
      simp only [applyOp] at hmem
      unfold replaceAllOptions at hmem
      split at hmem
      · exact Or.inl ⟨r', hmem, rfl, hp⟩
      · split at hmem
        · exact Or.inl ⟨r', hmem, rfl, hp⟩
        · split at hmem
          · exact Or.inl ⟨r', hmem, rfl, hp⟩
          · dsimp only at hmem
            rcases hloop : insertOptionsLoop iid (opts.getD []) (deleteOptionsCascade iid db)
              with ⟨ores, db2⟩
            rw [hloop] at hmem
            have h2 : db2.instances = db.instances := by
              have h3 := insertOptionsLoop_instances iid (opts.getD []) (deleteOptionsCascade iid db)
              rw [hloop] at h3
              exact h3
            cases ores with
            | some resp =>
              dsimp only at hmem
              rw [h2] at hmem
              exact Or.inl ⟨r', hmem, rfl, hp⟩
            | none =>
              dsimp only at hmem
              have hmem' : r' ∈ db.instances.map
                  (fun x => if x.id = iid then { x with updatedAt := now } else x) := by
                rw [← h2]
                exact hmem
              refine Or.inl (pubMono_map ?_ ?_ hmem' hp)
              · intro x; by_cases h : x.id = iid <;> simp [h]
              · intro x hx
                by_cases h : x.id = iid
                · simp [h] at hx; exact hx
                · simpa [h] using hx
    | publishOp iid a =>
      simp only [applyOp] at hmem
      unfold publishChooser at hmem
      split at hmem
      · exact Or.inl ⟨r', hmem, rfl, hp⟩
      · split at hmem
        · exact Or.inl ⟨r', hmem, rfl, hp⟩
        · split at hmem
          · exact Or.inl ⟨r', hmem, rfl, hp⟩
          · split at hmem
            · exact Or.inl ⟨r', hmem, rfl, hp⟩
            · refine Or.inl (pubMono_map ?_ ?_ hmem hp)
              · intro x; by_cases h : x.id = iid <;> simp [h]
              · intro x hx
                by_cases h : x.id = iid
                · simp [h] at hx
                · simpa [h] using hx
    | selectionsOp iid pname sels =>
      simp only [applyOp] at hmem
      unfold submitSelections at hmem
      split at hmem
      · exact Or.inl ⟨r', hmem, rfl, hp⟩
      · split at hmem
        · exact Or.inl ⟨r', hmem, rfl, hp⟩
        · rename_i chooser hfind
          split at hmem
          · exact Or.inl ⟨r', hmem, rfl, hp⟩
          · rcases hloop : submitLoop iid pname chooser.selectionLabels now (sels.getD []) db
              with ⟨ores, db2⟩
            rw [hloop] at hmem
            have h2 : db2.instances = db.instances := by
              have h3 := submitLoop_instances iid pname chooser.selectionLabels now (sels.getD []) db
              rw [hloop] at h3
              exact h3
            cases ores with
            | some resp =>
              dsimp only at hmem
              rw [h2] at hmem
              exact Or.inl ⟨r', hmem, rfl, hp⟩
            | none =>
              dsimp only at hmem
              have hmem' : r' ∈ db.instances.map
                  (fun x => if x.id = iid then { x with viewedAt := now } else x) := by
                rw [← h2]
                exact hmem
              refine Or.inl (pubMono_map ?_ ?_ hmem' hp)
              · intro x; by_cases h : x.id = iid <;> simp [h]
              · intro x hx
                by_cases h : x.id = iid
                · simpa [h] using hx
                · simpa [h] using hx
    | resultsOp iid =>
      simp only [applyOp] at hmem
      unfold getResults at hmem
      split at hmem
      · exact Or.inl ⟨r', hmem, rfl, hp⟩
      · refine Or.inl (pubMono_map ?_ ?_ hmem hp)
        · intro x; by_cases h : x.id = iid <;> simp [h]
        · intro x hx
          by_cases h : x.id = iid
          · simpa [h] using hx
          · simpa [h] using hx
    | chooserOp iid =>
      simp only [applyOp] at hmem
      unfold getChooser at hmem
      split at hmem
      · exact Or.inl ⟨r', hmem, rfl, hp⟩
      · refine Or.inl (pubMono_map ?_ ?_ hmem hp)
        · intro x; by_cases h : x.id = iid <;> simp [h]
        · intro x hx
          by_cases h : x.id = iid
          · simpa [h] using hx
          · simpa [h] using hx
    | sweepOp =>
      simp only [applyOp] at hmem
      unfold retentionSweep at hmem
      exact Or.inl ⟨r', (List.mem_filter.mp hmem).1, rfl, hp⟩
  · intro iid a now db r hfind hadmin ha hpub
    unfold publishChooser
    rw [if_neg ha, hfind]
    simp only []
    rw [if_neg (by simp [hadmin]), if_pos hpub]

/-- C8 witness: a GET on the draft store leaves its instance unpublished with
a matching pre-state row, and publishing the already-published sample
instance returns the already-published report with the store unchanged. -/
theorem c8_published_monotonic_and_publish_idempotent_witness :
    ((∃ r ∈ draftDB.instances, r.id = "i1" ∧ r.published = false) ∨
      ∀ r ∈ draftDB.instances, r.id ≠ "i1") ∧
    publishChooser "i1" "admintok9012345a" 105 sampleDB =
      (.publishOk "Chooser is already published" true, sampleDB) := by
  constructor
  · exact c8_published_monotonic_and_publish_idempotent.1 (.chooserOp "i1") 105 draftDB
      { draftInstance with viewedAt := 105 } (by decide) rfl
  · exact c8_published_monotonic_and_publish_idempotent.2 "i1" "admintok9012345a" 105 sampleDB
      sampleInstance rfl rfl (by decide) rfl

lemma mkOptionRows_length (iid : String) (startId : Nat) (l : List OptReq) :
    (mkOptionRows iid startId l).length = l.length := by
  induction l generalizing startId with
  | nil => rfl
  | cons o rest ih => simp [mkOptionRows, ih]

lemma mkOptionRows_chooserId (iid : String) (startId : Nat) (l : List OptReq) :
    ∀ o ∈ mkOptionRows iid startId l, o.chooserId = iid := by
  induction l generalizing startId with
  | nil => simp [mkOptionRows]
  | cons o rest ih =>
    intro x hx
    rcases List.mem_cons.mp hx with rfl | hx
    · rfl
    · exact ih _ x hx

lemma insertOptionsLoop_valid_options (iid : String) (l : List OptReq) (db : DB)
    (h : ∀ o ∈ l, optReqValid o) :
    (insertOptionsLoop iid l db).1 = none ∧
    (insertOptionsLoop iid l db).2.options =
      db.options ++ mkOptionRows iid db.nextOptionId l := by
  induction l generalizing db with
  | nil => exact ⟨rfl, by simp [insertOptionsLoop, mkOptionRows]⟩
  | cons o rest ih =>
    have ho : ¬ (o.value = "" ∨ o.order = none) := by
      simpa [optReqValid] using h o (List.mem_cons_self o rest)
    unfold insertOptionsLoop
    rw [if_neg ho]
    obtain ⟨h1, h2⟩ := ih _ (fun x hx => h x (List.mem_cons_of_mem o hx))
    refine ⟨h1, ?_⟩
    rw [h2]
    simp [mkOptionRows, List.append_assoc]

lemma insertOptionsLoop_stops (iid : String) (l : List OptReq) (db : DB)
    (h : ∃ o ∈ l, ¬ optReqValid o) :
    insertOptionsLoop iid l db =
      (some (.err 400 "Each option must have \"value\" and \"order\" fields"),
        (insertOptionsLoop iid (l.takeWhile optReqValid) db).2) := by
  induction l generalizing db with
  | nil => simp at h
  | cons o rest ih =>
    by_cases ho : optReqValid o
    · have hcond : ¬ (o.value = "" ∨ o.order = none) := by simpa [optReqValid] using ho
      have hrest : ∃ x ∈ rest, ¬ optReqValid x := by
        rcases h with ⟨x, hx, hxv⟩
        rcases List.mem_cons.mp hx with rfl | hx
        · exact absurd ho hxv
        · exact ⟨x, hx, hxv⟩
      rw [List.takeWhile_cons_of_pos ho]
      unfold insertOptionsLoop
      simp only [if_neg hcond]
      exact ih _ hrest
    · have hcond : o.value = "" ∨ o.order = none := by
        have h1 := ho
        simp only [optReqValid, decide_eq_true_eq] at h1
        exact not_not.mp h1
      rw [List.takeWhile_cons_of_neg ho]
      unfold insertOptionsLoop
      simp only [if_pos hcond]

/-- C1 counterexample: with a valid admin token, a batch whose single entry
lacks a `value` is rejected with 400, yet the two previously stored options of
the sample instance have been deleted — the operation is not atomic and the
claim as stated is false. -/
theorem c1_replaceAll_not_atomic_counterexample :
    (replaceAllOptions "i1" "admintok9012345a"
        (some [{ value := "", order := some 0, metadata := none }]) 200 sampleDB).1 =
      .err 400 "Each option must have \"value\" and \"order\" fields" ∧
    (replaceAllOptions "i1" "admintok9012345a"
        (some [{ value := "", order := some 0, metadata := none }]) 200 sampleDB).2.options = [] ∧
    sampleDB.options ≠ [] := by
  exact ⟨rfl, rfl, by decide⟩

/-- C1 amended: with a valid admin token, a batch containing an entry lacking
a `value` or an `order` fails with InvalidArgument (400), but the handler has
already deleted the previously stored options (cascading away their
selections) and inserted the entries preceding the first invalid one: the
resulting state is the post-delete state with exactly the valid prefix of the
batch inserted. -/
theorem c1_replaceAll_amended :
    ∀ (iid a : String) (now : Nat) (db : DB) (r : InstanceRow) (opts : List OptReq),
      db.instances.find? (fun x => x.id = iid) = some r →
      r.adminId = a → a ≠ "" →
      (∃ o ∈ opts, ¬ optReqValid o) →
      (replaceAllOptions iid a (some opts) now db).1 =
        .err 400 "Each option must have \"value\" and \"order\" fields" ∧
      (replaceAllOptions iid a (some opts) now db).2 =
        (insertOptionsLoop iid (opts.takeWhile optReqValid)
          (deleteOptionsCascade iid db)).2 ∧
      ((replaceAllOptions iid a (some opts) now db).2.options.filter
          (fun o => o.chooserId = iid)).length = (opts.takeWhile optReqValid).length := by
  intro iid a now db r opts hfind hadmin ha hinv
  have key : replaceAllOptions iid a (some opts) now db =
      (.err 400 "Each option must have \"value\" and \"order\" fields",
        (insertOptionsLoop iid (opts.takeWhile optReqValid)
          (deleteOptionsCascade iid db)).2) := by
    unfold replaceAllOptions
    rw [if_neg (by simp [ha]), hfind]
    simp only []
    rw [if_neg (by simp [hadmin])]
    simp only [Option.getD_some]
    rw [insertOptionsLoop_stops iid opts (deleteOptionsCascade iid db) hinv]
  have htake : ∀ o ∈ opts.takeWhile optReqValid, optReqValid o :=
    fun o ho => List.mem_takeWhile_imp ho
  obtain ⟨-, h2⟩ := insertOptionsLoop_valid_options iid (opts.takeWhile optReqValid)
    (deleteOptionsCascade iid db) htake
  refine ⟨by rw [key], by rw [key], ?_⟩
  rw [key]
  simp only
  rw [h2, List.filter_append]
  have hnil : (deleteOptionsCascade iid db).options.filter
      (fun o => o.chooserId = iid) = [] := by
    refine List.filter_eq_nil_iff.mpr ?_
    intro o ho
    simp only [deleteOptionsCascade] at ho
    have hmem := (List.mem_filter.mp ho).2
    simp only [decide_eq_true_eq] at hmem ⊢
    exact hmem
  rw [hnil, List.nil_append]
  have hself : (mkOptionRows iid (deleteOptionsCascade iid db).nextOptionId
      (opts.takeWhile optReqValid)).filter (fun o => o.chooserId = iid) =
      mkOptionRows iid (deleteOptionsCascade iid db).nextOptionId
        (opts.takeWhile optReqValid) := by
    refine List.filter_eq_self.mpr ?_
    intro o ho
    simpa using mkOptionRows_chooserId _ _ _ o ho
  rw [hself, mkOptionRows_length]

/-- C1 witness: concrete run of the amended statement — a two-entry batch
whose second entry is invalid leaves exactly the one valid prefix entry
stored for the instance. -/
theorem c1_replaceAll_amended_witness :
    (replaceAllOptions "i1" "admintok9012345a"
        (some [{ value := "A", order := some 0, metadata := none },
               { value := "", order := none, metadata := none }]) 200 sampleDB).1 =
      .err 400 "Each option must have \"value\" and \"order\" fields" ∧
    (replaceAllOptions "i1" "admintok9012345a"
        (some [{ value := "A", order := some 0, metadata := none },
               { value := "", order := none, metadata := none }]) 200 sampleDB).2 =
      (insertOptionsLoop "i1"
        (List.takeWhile optReqValid
          [{ value := "A", order := some 0, metadata := none },
           { value := "", order := none, metadata := none }])
        (deleteOptionsCascade "i1" sampleDB)).2 ∧
    ((replaceAllOptions "i1" "admintok9012345a"
        (some [{ value := "A", order := some 0, metadata := none },
               { value := "", order := none, metadata := none }]) 200 sampleDB).2.options.filter
        (fun o => o.chooserId = "i1")).length =
      (List.takeWhile optReqValid
        [{ value := "A", order := some 0, metadata := none },
         { value := "", order := none, metadata := none }]).length :=
  c1_replaceAll_amended "i1" "admintok9012345a" 200 sampleDB sampleInstance
    [{ value := "A", order := some 0, metadata := none },
     { value := "", order := none, metadata := none }]
    rfl rfl (by decide) (by decide)

lemma submitLoop_valid_none (iid pname : String) (labels : List String) (now : Nat)
    (l : List SelReq) (db : DB)
    (h : ∀ s ∈ l, selReqValid db.options iid labels s) :
    (submitLoop iid pname labels now l db).1 = none := by
  induction l generalizing db with
  | nil => rfl
  | cons s rest ih =>
    have hs := h s (List.mem_cons_self s rest)
    simp only [selReqValid, Bool.and_eq_true, decide_eq_true_eq] at hs
    obtain ⟨⟨h1, h2⟩, h3⟩ := hs
    unfold submitLoop
    rw [if_neg h1, if_neg (not_not_intro h2), if_neg (not_not_intro h3)]
    cases hf : db.selections.find? (fun t =>
        t.chooserId = iid ∧ t.optionId = s.optionId ∧ t.participantName = pname) with
    | some existing =>
      exact ih _ (fun x hx => h x (List.mem_cons_of_mem s hx))
    | none =>
      exact ih _ (fun x hx => h x (List.mem_cons_of_mem s hx))

lemma submitLoop_stops (iid pname : String) (labels : List String) (now : Nat)
    (l : List SelReq) (db : DB)
    (h : ∃ s ∈ l, ¬ selReqValid db.options iid labels s) :
    ∃ m, submitLoop iid pname labels now l db =
      (some (.err 400 m),
        (submitLoop iid pname labels now
          (l.takeWhile (selReqValid db.options iid labels)) db).2) := by
  induction l generalizing db with
  | nil => simp at h
  | cons s rest ih =>
    by_cases hs : selReqValid db.options iid labels s
    · have hs' := hs
      simp only [selReqValid, Bool.and_eq_true, decide_eq_true_eq] at hs'
      obtain ⟨⟨h1, h2⟩, h3⟩ := hs'
      have hrest : ∃ x ∈ rest, ¬ selReqValid db.options iid labels x := by
        rcases h with ⟨x, hx, hxv⟩
        rcases List.mem_cons.mp hx with rfl | hx
        · exact absurd hs hxv
        · exact ⟨x, hx, hxv⟩
      rw [List.takeWhile_cons_of_pos hs]
      unfold submitLoop
      simp only [if_neg h1, if_neg (not_not_intro h2), if_neg (not_not_intro h3)]
      cases hf : db.selections.find? (fun t =>
          t.chooserId = iid ∧ t.optionId = s.optionId ∧ t.participantName = pname) with
      | some existing => exact ih _ hrest
      | none => exact ih _ hrest
    · rw [List.takeWhile_cons_of_neg hs]
      unfold submitLoop
      by_cases h1 : s.optionId = 0 ∨ s.selectionValue = ""
      · exact ⟨_, by rw [if_pos h1]⟩
      · by_cases h2 : labels.contains s.selectionValue
        · have h3 : ¬ db.options.any (fun o => o.id = s.optionId ∧ o.chooserId = iid) := by
            intro h3
            refine hs ?_
            unfold selReqValid
            rw [Bool.and_eq_true, Bool.and_eq_true]
            exact ⟨⟨decide_eq_true h1, h2⟩, by simpa using h3⟩
          exact ⟨_, by rw [if_neg h1, if_neg (not_not_intro h2), if_pos h3]⟩
        · exact ⟨_, by rw [if_neg h1, if_pos h2]⟩

lemma find?_id_map (l : List InstanceRow) (iid : String) (g : InstanceRow → InstanceRow)
    (hid : ∀ x, (g x).id = x.id) (r : InstanceRow)
    (hfind : l.find? (fun x => x.id = iid) = some r) :
    (l.map g).find? (fun x => x.id = iid) = some (g r) := by
  rw [List.find?_map]
  have hcomp : ((fun (x : InstanceRow) => decide (x.id = iid)) ∘ g) =
      fun (x : InstanceRow) => decide (x.id = iid) := by
    funext x
    simp [Function.comp, hid x]
  rw [hcomp, hfind]
  rfl

lemma submit_single_insert (iid pname : String) (oid : Nat) (v : String) (t : Nat)
    (db : DB) (r : InstanceRow)
    (hfind : db.instances.find? (fun x => x.id = iid) = some r)
    (hpub : r.published = true) (hp : pname ≠ "")
    (h1 : ¬ (oid = 0 ∨ v = ""))
    (h2 : r.selectionLabels.contains v = true)
    (h3 : db.options.any (fun o => o.id = oid ∧ o.chooserId = iid) = true)
    (hnone : db.selections.find? (fun x =>
      x.chooserId = iid ∧ x.optionId = oid ∧ x.participantName = pname) = none) :
    submitSelections iid pname (some [{ optionId := oid, selectionValue := v }]) t db =
      (.selectionsOk pname 1,
        bumpViewed iid t
          { db with
            selections := db.selections ++
              [{ id := db.nextSelectionId, chooserId := iid, optionId := oid,
                 participantName := pname, selectionValue := v,
                 createdAt := t, updatedAt := t }],
            nextSelectionId := db.nextSelectionId + 1 }) := by
  unfold submitSelections
  rw [if_neg (by simp [hp]), hfind]
  simp only []
  rw [if_neg (not_not_intro hpub)]
  simp only [Option.getD_some]
  unfold submitLoop
  rw [if_neg h1, if_neg (not_not_intro h2), if_neg (not_not_intro h3), hnone]
  rfl

lemma submit_single_update (iid pname : String) (oid : Nat) (v : String) (t : Nat)
    (db : DB) (r : InstanceRow) (ex : SelectionRow)
    (hfind : db.instances.find? (fun x => x.id = iid) = some r)
    (hpub : r.published = true) (hp : pname ≠ "")
    (h1 : ¬ (oid = 0 ∨ v = ""))
    (h2 : r.selectionLabels.contains v = true)
    (h3 : db.options.any (fun o => o.id = oid ∧ o.chooserId = iid) = true)
    (hsome : db.selections.find? (fun x =>
      x.chooserId = iid ∧ x.optionId = oid ∧ x.participantName = pname) = some ex) :
    submitSelections iid pname (some [{ optionId := oid, selectionValue := v }]) t db =
      (.selectionsOk pname 1,
        bumpViewed iid t
          { db with
            selections := db.selections.map (fun x =>
              if x.id = ex.id then { x with selectionValue := v, updatedAt := t }
              else x) }) := by
  unfold submitSelections
  rw [if_neg (by simp [hp]), hfind]
  simp only []
  rw [if_neg (not_not_intro hpub)]
  simp only [Option.getD_some]
  unfold submitLoop
  rw [if_neg h1, if_neg (not_not_intro h2), if_neg (not_not_intro h3), hsome]
  rfl


/-- C4: on a published instance, submitting a selection for an option it owns
and then submitting again for the same `(instance, option, participant)`
triple with a second valid value leaves exactly one stored selection row for
that triple: its value is the second one, its `updated_at` is the second
submission time and its `created_at` is still the first submission time. -/
theorem c4_selection_upsert :
    ∀ (iid pname : String) (oid : Nat) (v1 v2 : String) (t1 t2 : Nat)
      (db : DB) (r : InstanceRow),
      db.instances.find? (fun x => x.id = iid) = some r →
      r.published = true → pname ≠ "" → oid ≠ 0 → v1 ≠ "" → v2 ≠ "" →
      v1 ∈ r.selectionLabels → v2 ∈ r.selectionLabels →
      db.options.any (fun o => o.id = oid ∧ o.chooserId = iid) = true →
      db.selections.find? (fun x =>
        x.chooserId = iid ∧ x.optionId = oid ∧ x.participantName = pname) = none →
      (submitSelections iid pname (some [{ optionId := oid, selectionValue := v1 }]) t1 db).1 =
        .selectionsOk pname 1 ∧
      (submitSelections iid pname (some [{ optionId := oid, selectionValue := v2 }]) t2
          (submitSelections iid pname
            (some [{ optionId := oid, selectionValue := v1 }]) t1 db).2).1 =
        .selectionsOk pname 1 ∧
      ((submitSelections iid pname (some [{ optionId := oid, selectionValue := v2 }]) t2
          (submitSelections iid pname
            (some [{ optionId := oid, selectionValue := v1 }]) t1 db).2).2.selections.filter
        (fun x => x.chooserId = iid ∧ x.optionId = oid ∧ x.participantName = pname)) =
      [{ id := db.nextSelectionId, chooserId := iid, optionId := oid,
         participantName := pname, selectionValue := v2,
         createdAt := t1, updatedAt := t2 }] := by
  intro iid pname oid v1 v2 t1 t2 db r hfind hpub hp hoid hv1 hv2 hm1 hm2 hany hnone
  have h1a : ¬ (oid = 0 ∨ v1 = "") := by simp [hoid, hv1]
  have h1b : ¬ (oid = 0 ∨ v2 = "") := by simp [hoid, hv2]
  have hc1 : r.selectionLabels.contains v1 = true := by simpa using hm1
  have hc2 : r.selectionLabels.contains v2 = true := by simpa using hm2
  have hrid : r.id = iid := by simpa using List.find?_some hfind
  have key1 := submit_single_insert iid pname oid v1 t1 db r hfind hpub hp h1a hc1 hany hnone
  rw [key1]
  dsimp only
  refine ⟨rfl, ?_⟩
  have hfind2 : (bumpViewed iid t1
      { db with
        selections := db.selections ++
          [{ id := db.nextSelectionId, chooserId := iid, optionId := oid,
             participantName := pname, selectionValue := v1,
             createdAt := t1, updatedAt := t1 }],
        nextSelectionId := db.nextSelectionId + 1 }).instances.find?
      (fun x => x.id = iid) = some { r with viewedAt := t1 } := by
    show (db.instances.map
        (fun x => if x.id = iid then { x with viewedAt := t1 } else x)).find?
        (fun x => x.id = iid) = some { r with viewedAt := t1 }
    have hmap := find?_id_map db.instances iid
      (fun x => if x.id = iid then { x with viewedAt := t1 } else x)
      (fun x => by by_cases h : x.id = iid <;> simp [h]) r hfind
    dsimp only at hmap
    rw [if_pos hrid] at hmap
    exact hmap
  have hsome2 : (bumpViewed iid t1
      { db with
        selections := db.selections ++
          [{ id := db.nextSelectionId, chooserId := iid, optionId := oid,
             participantName := pname, selectionValue := v1,
             createdAt := t1, updatedAt := t1 }],
        nextSelectionId := db.nextSelectionId + 1 }).selections.find?
      (fun x => x.chooserId = iid ∧ x.optionId = oid ∧ x.participantName = pname) =
      some { id := db.nextSelectionId, chooserId := iid, optionId := oid,
             participantName := pname, selectionValue := v1,
             createdAt := t1, updatedAt := t1 } := by
    show (db.selections ++
        [({ id := db.nextSelectionId, chooserId := iid, optionId := oid,
            participantName := pname, selectionValue := v1,
            createdAt := t1, updatedAt := t1 } : SelectionRow)]).find?
        (fun x => x.chooserId = iid ∧ x.optionId = oid ∧ x.participantName = pname) =
      some { id := db.nextSelectionId, chooserId := iid, optionId := oid,
             participantName := pname, selectionValue := v1,
             createdAt := t1, updatedAt := t1 }
    rw [List.find?_append, hnone]
    simp [List.find?]
  have key2 := submit_single_update iid pname oid v2 t2
    (bumpViewed iid t1
      { db with
        selections := db.selections ++
          [{ id := db.nextSelectionId, chooserId := iid, optionId := oid,
             participantName := pname, selectionValue := v1,
             createdAt := t1, updatedAt := t1 }],
        nextSelectionId := db.nextSelectionId + 1 })
    { r with viewedAt := t1 }
    { id := db.nextSelectionId, chooserId := iid, optionId := oid,
      participantName := pname, selectionValue := v1,
      createdAt := t1, updatedAt := t1 }
    hfind2 hpub hp h1b hc2 hany hsome2
  rw [key2]
  dsimp only
  refine ⟨rfl, ?_⟩
  show ((db.selections ++
      [({ id := db.nextSelectionId, chooserId := iid, optionId := oid,
          participantName := pname, selectionValue := v1,
          createdAt := t1, updatedAt := t1 } : SelectionRow)]).map
      (fun (x : SelectionRow) => if x.id = db.nextSelectionId
        then { x with selectionValue := v2, updatedAt := t2 } else x)).filter
      (fun x => x.chooserId = iid ∧ x.optionId = oid ∧ x.participantName = pname) =
    [{ id := db.nextSelectionId, chooserId := iid, optionId := oid,
       participantName := pname, selectionValue := v2,
       createdAt := t1, updatedAt := t2 }]
  rw [List.filter_map]
  have hcomp : ((fun (x : SelectionRow) =>
      decide (x.chooserId = iid ∧ x.optionId = oid ∧ x.participantName = pname)) ∘
      (fun x => if x.id = db.nextSelectionId
        then { x with selectionValue := v2, updatedAt := t2 } else x)) =
      fun (x : SelectionRow) =>
        decide (x.chooserId = iid ∧ x.optionId = oid ∧ x.participantName = pname) := by
    funext x
    by_cases h : x.id = db.nextSelectionId <;> simp [Function.comp, h]
  rw [hcomp, List.filter_append]
  have hfilnil : db.selections.filter (fun x =>
      x.chooserId = iid ∧ x.optionId = oid ∧ x.participantName = pname) = [] := by
    refine List.filter_eq_nil_iff.mpr ?_
    intro x hx
    exact List.find?_eq_none.mp hnone x hx
  rw [hfilnil]
  simp [List.filter]


/-- C4 witness: Alice submits "ok" then "ideal" for the Pizza option of the
sample store; exactly one row remains, holding "ideal", created at 103 and
updated at 110. -/
theorem c4_selection_upsert_witness :
    (submitSelections "i1" "Alice"
        (some [{ optionId := 1, selectionValue := "ok" }]) 103 sampleDB).1 =
      .selectionsOk "Alice" 1 ∧
    (submitSelections "i1" "Alice"
        (some [{ optionId := 1, selectionValue := "ideal" }]) 110
        (submitSelections "i1" "Alice"
          (some [{ optionId := 1, selectionValue := "ok" }]) 103 sampleDB).2).1 =
      .selectionsOk "Alice" 1 ∧
    ((submitSelections "i1" "Alice"
        (some [{ optionId := 1, selectionValue := "ideal" }]) 110
        (submitSelections "i1" "Alice"
          (some [{ optionId := 1, selectionValue := "ok" }]) 103 sampleDB).2).2.selections.filter
      (fun x => x.chooserId = "i1" ∧ x.optionId = 1 ∧ x.participantName = "Alice")) =
    [{ id := 1, chooserId := "i1", optionId := 1, participantName := "Alice",
       selectionValue := "ideal", createdAt := 103, updatedAt := 110 }] :=
  c4_selection_upsert "i1" "Alice" 1 "ok" "ideal" 103 110 sampleDB sampleInstance
    rfl rfl (by decide) (by decide) (by decide) (by decide) (by decide) (by decide)
    rfl rfl


/-- C2 counterexample: on the published sample instance, a two-pair batch
whose second pair has a value outside the label vocabulary is rejected with
400, yet the first pair has already been inserted — the batch is not processed
all-or-nothing and the claim as stated is false. -/
theorem c2_selections_not_atomic_counterexample :
    (submitSelections "i1" "Bob"
        (some [{ optionId := 1, selectionValue := "ok" },
               { optionId := 2, selectionValue := "zzz" }]) 106 sampleDB).1 =
      .err 400 "Invalid selection_value: zzz" ∧
    (submitSelections "i1" "Bob"
        (some [{ optionId := 1, selectionValue := "ok" },
               { optionId := 2, selectionValue := "zzz" }]) 106 sampleDB).2.selections =
      [{ id := 1, chooserId := "i1", optionId := 1, participantName := "Bob",
         selectionValue := "ok", createdAt := 106, updatedAt := 106 }] ∧
    sampleDB.selections = [] :=
  ⟨rfl, rfl, rfl⟩

/-- C2 amended: on a published instance, a batch containing an invalid pair
(missing field, value outside `selection_labels`, or option not owned by the
instance) is rejected with a 400 response, but the pairs preceding the first
invalid one have already been upserted and remain: the resulting state is that
of processing exactly the valid prefix of the batch (and `viewed_at` is not
bumped). -/
theorem c2_selections_amended :
    ∀ (iid pname : String) (now : Nat) (db : DB) (r : InstanceRow) (sels : List SelReq),
      db.instances.find? (fun x => x.id = iid) = some r →
      r.published = true → pname ≠ "" →
      (∃ s ∈ sels, ¬ selReqValid db.options iid r.selectionLabels s) →
      (∃ m, (submitSelections iid pname (some sels) now db).1 = .err 400 m) ∧
      (submitSelections iid pname (some sels) now db).2 =
        (submitLoop iid pname r.selectionLabels now
          (sels.takeWhile (selReqValid db.options iid r.selectionLabels)) db).2 := by
  intro iid pname now db r sels hfind hpub hp hinv
  obtain ⟨m, hm⟩ := submitLoop_stops iid pname r.selectionLabels now sels db hinv
  have key : submitSelections iid pname (some sels) now db =
      (.err 400 m,
        (submitLoop iid pname r.selectionLabels now
          (sels.takeWhile (selReqValid db.options iid r.selectionLabels)) db).2) := by
    unfold submitSelections
    rw [if_neg (by simp [hp]), hfind]
    simp only []
    rw [if_neg (not_not_intro hpub)]
    simp only [Option.getD_some]
    rw [hm]
  exact ⟨⟨m, by rw [key]⟩, by rw [key]⟩

/-- C2 witness: concrete run of the amended statement on the sample store. -/
theorem c2_selections_amended_witness :
    (∃ m, (submitSelections "i1" "Bob"
        (some [{ optionId := 1, selectionValue := "ok" },
               { optionId := 2, selectionValue := "zzz" }]) 106 sampleDB).1 = .err 400 m) ∧
    (submitSelections "i1" "Bob"
        (some [{ optionId := 1, selectionValue := "ok" },
               { optionId := 2, selectionValue := "zzz" }]) 106 sampleDB).2 =
      (submitLoop "i1" "Bob" sampleInstance.selectionLabels 106
        (List.takeWhile (selReqValid sampleDB.options "i1" sampleInstance.selectionLabels)
          [{ optionId := 1, selectionValue := "ok" },
           { optionId := 2, selectionValue := "zzz" }]) sampleDB).2 :=
  c2_selections_amended "i1" "Bob" 106 sampleDB sampleInstance
    [{ optionId := 1, selectionValue := "ok" },
     { optionId := 2, selectionValue := "zzz" }]
    rfl rfl (by decide) (by decide)

/-- C5 counterexample: a request with well-formed required fields (name
present, selections an array) on the unpublished sample instance fails with
the Forbidden not-published condition, as the claim says; but after the
instance is published the identical request does not succeed — it fails 400
because its selection value is outside the label vocabulary — so the second
half of the claim as stated is false. -/
theorem c5_publish_gate_counterexample :
    (submitSelections "i1" "Alice"
        (some [{ optionId := 1, selectionValue := "zzz" }]) 103 draftDB).1 =
      .err 403 "Chooser is not published yet" ∧
    (submitSelections "i1" "Alice"
        (some [{ optionId := 1, selectionValue := "zzz" }]) 103
        (publishChooser "i1" "admintok9012345a" 102 draftDB).2).1 =
      .err 400 "Invalid selection_value: zzz" :=
  ⟨rfl, rfl⟩

/-- C5 amended: on an existing unpublished instance every submit request with
well-formed required fields fails with the Forbidden not-published condition
and leaves the store entirely unchanged; after publish the identical request
no longer hits that condition — it succeeds exactly when every pair of the
batch is valid (fields present, value in `selection_labels`, option owned by
the instance). -/
theorem c5_publish_gate_amended :
    (∀ (iid pname : String) (now : Nat) (db : DB) (r : InstanceRow) (sels : List SelReq),
      db.instances.find? (fun x => x.id = iid) = some r →
      r.published = false → pname ≠ "" →
      (submitSelections iid pname (some sels) now db).1 =
        .err 403 "Chooser is not published yet" ∧
      (submitSelections iid pname (some sels) now db).2 = db) ∧
    (∀ (iid pname : String) (now : Nat) (db : DB) (r : InstanceRow) (sels : List SelReq),
      db.instances.find? (fun x => x.id = iid) = some r →
      r.published = true → pname ≠ "" →
      (∀ s ∈ sels, selReqValid db.options iid r.selectionLabels s) →
      (submitSelections iid pname (some sels) now db).1 =
        .selectionsOk pname sels.length) := by
  constructor
  · intro iid pname now db r sels hfind hpubf hp
    have key : submitSelections iid pname (some sels) now db =
        (.err 403 "Chooser is not published yet", db) := by
      unfold submitSelections
      rw [if_neg (by simp [hp]), hfind]
      simp only []
      rw [if_pos (by simp [hpubf])]
    exact ⟨by rw [key], by rw [key]⟩
  · intro iid pname now db r sels hfind hpub hp hvalid
    unfold submitSelections
    rw [if_neg (by simp [hp]), hfind]
    simp only []
    rw [if_neg (not_not_intro hpub)]
    simp only [Option.getD_some]
    rcases hl : submitLoop iid pname r.selectionLabels now sels db with ⟨ores, db2⟩
    have hnone : ores = none := by
      have h1 := submitLoop_valid_none iid pname r.selectionLabels now sels db hvalid
      rw [hl] at h1
      exact h1
    subst hnone
    rfl

/-- C5 witness: a valid-field request on the draft store fails 403 leaving the
store unchanged, and the corresponding valid request on the published store
succeeds. -/
theorem c5_publish_gate_amended_witness :
    ((submitSelections "i1" "Alice"
        (some [{ optionId := 1, selectionValue := "zzz" }]) 103 draftDB).1 =
      .err 403 "Chooser is not published yet" ∧
     (submitSelections "i1" "Alice"
        (some [{ optionId := 1, selectionValue := "zzz" }]) 103 draftDB).2 = draftDB) ∧
    (submitSelections "i1" "Alice"
        (some [{ optionId := 1, selectionValue := "ok" }]) 103 sampleDB).1 =
      .selectionsOk "Alice" 1 := by
  constructor
  · exact c5_publish_gate_amended.1 "i1" "Alice" 103 draftDB draftInstance
      [{ optionId := 1, selectionValue := "zzz" }] rfl rfl (by decide)
  · have h := c5_publish_gate_amended.2 "i1" "Alice" 103 sampleDB sampleInstance
      [{ optionId := 1, selectionValue := "ok" }] rfl rfl (by decide) (by decide)
    exact h

/-- C9 counterexample: creating with `selection_labels` explicitly `[]` stores
an empty label vocabulary (first conjunct), but a subsequent submit carrying
one selection fails with 403 Forbidden (the fresh instance is unpublished),
not with InvalidArgument — so the claim that `every` such submit fails with
InvalidArgument is false as stated. -/
theorem c9_empty_labels_counterexample :
    ((createChooser "simple_poll" "T" none (some []) [0, 1, 2, 3, 4, 5, 6, 7]
        [0, 1, 2, 3, 4, 5, 6, 7, 8, 9, 10, 11, 12, 13, 14, 15] 100 emptyDB).2.instances.map
      (fun r => r.selectionLabels)) = [[]] ∧
    (submitSelections "abcdefgh" "Alice"
        (some [{ optionId := 1, selectionValue := "x" }]) 101
        (createChooser "simple_poll" "T" none (some []) [0, 1, 2, 3, 4, 5, 6, 7]
          [0, 1, 2, 3, 4, 5, 6, 7, 8, 9, 10, 11, 12, 13, 14, 15] 100 emptyDB).2).1 =
      .err 403 "Chooser is not published yet" :=
  ⟨rfl, rfl⟩

/-- C9 amended: an explicit empty `selection_labels` list is truthy, so create
stores the empty vocabulary (the default is substituted only when the field is
absent or falsy); and once the instance is published, every submit with
well-formed required fields carrying at least one selection fails with
InvalidArgument (400), since no selection value can pass the empty-label
membership check (an unpublished instance instead fails 403 Forbidden). -/
theorem c9_empty_labels_amended :
    (∀ (slug title : String) (d : Option String) (ib ab : List Nat) (now : Nat)
        (db : DB) (resp : V1Resp) (db2 : DB),
      createChooser slug title d (some []) ib ab now db = (resp, db2) →
      ∀ r ∈ db2.instances, r ∉ db.instances → r.selectionLabels = []) ∧
    labelsOrDefault none = ["no", "ok", "ideal"] ∧
    (∀ (iid pname : String) (now : Nat) (db : DB) (r : InstanceRow)
        (s0 : SelReq) (rest : List SelReq),
      db.instances.find? (fun x => x.id = iid) = some r →
      r.selectionLabels = [] → r.published = true → pname ≠ "" →
      ∃ m, (submitSelections iid pname (some (s0 :: rest)) now db).1 = .err 400 m) := by
  refine ⟨?_, rfl, ?_⟩
  · intro slug title d ib ab now db resp db2 heq r hr hnotin
    unfold createChooser at heq
    split at heq
    · cases heq; exact absurd hr hnotin
    · split at heq
      · cases heq; exact absurd hr hnotin
      · dsimp only at heq
        split at heq
        · cases heq; exact absurd hr hnotin
        · cases heq
          rcases List.mem_append.mp hr with h | h
          · exact absurd h hnotin
          · rw [List.mem_singleton.mp h]
            rfl
  · intro iid pname now db r s0 rest hfind hlab hpub hp
    unfold submitSelections
    rw [if_neg (by simp [hp]), hfind]
    simp only []
    rw [if_neg (not_not_intro hpub)]
    simp only [Option.getD_some]
    rw [hlab]
    unfold submitLoop
    by_cases h1 : s0.optionId = 0 ∨ s0.selectionValue = ""
    · rw [if_pos h1]
      exact ⟨_, rfl⟩
    · rw [if_neg h1, if_pos (by simp)]
      exact ⟨_, rfl⟩

/-- C9 witness: after creating with empty labels and force-publishing, a
submit with one selection fails 400. -/
theorem c9_empty_labels_amended_witness :
    (∀ r ∈ (createChooser "simple_poll" "T" none (some []) [0, 1, 2, 3, 4, 5, 6, 7]
        [0, 1, 2, 3, 4, 5, 6, 7, 8, 9, 10, 11, 12, 13, 14, 15] 100 emptyDB).2.instances,
      r ∉ emptyDB.instances → r.selectionLabels = []) ∧
    (∃ m, (submitSelections "i1" "Alice"
        (some [{ optionId := 1, selectionValue := "x" }]) 101
        { sampleDB with
          instances := [{ sampleInstance with selectionLabels := [] }] }).1 =
      .err 400 m) := by
  constructor
  · exact c9_empty_labels_amended.1 "simple_poll" "T" none
      [0, 1, 2, 3, 4, 5, 6, 7] [0, 1, 2, 3, 4, 5, 6, 7, 8, 9, 10, 11, 12, 13, 14, 15]
      100 emptyDB _ _ rfl
  · exact c9_empty_labels_amended.2.2 "i1" "Alice" 101
      { sampleDB with instances := [{ sampleInstance with selectionLabels := [] }] }
      { sampleInstance with selectionLabels := [] }
      { optionId := 1, selectionValue := "x" } [] rfl rfl rfl (by decide)

lemma recSet_comp_fst (k' : String) (v : Nat) (k : String) :
    ((fun (p : String × Nat) => decide (p.1 = k)) ∘
      (fun (p : String × Nat) => if p.1 = k' then (k', v) else p)) =
      fun (p : String × Nat) => decide (p.1 = k) := by
  funext p
  by_cases hp : p.1 = k' <;> simp [Function.comp, hp]

lemma recGet_recSet (m : List (String × Nat)) (k' : String) (v : Nat) (k : String) :
    recGet (recSet m k' v) k = if k = k' then v else recGet m k := by
  unfold recSet
  by_cases hfound : (m.find? (fun p => p.1 = k')).isSome = true
  · rw [if_pos hfound]
    unfold recGet
    rw [List.find?_map, recSet_comp_fst k' v k]
    cases hm : m.find? (fun p => p.1 = k) with
    | none =>
      by_cases hk : k = k'
      · subst hk
        rw [hm] at hfound
        simp at hfound
      · simp [hm, hk]
    | some q =>
      have hq : q.1 = k := by simpa using List.find?_some hm
      by_cases hk : k = k'
      · subst hk
        simp [hq]
      · simp [hq, hk, hm]
  · rw [if_neg hfound]
    unfold recGet
    by_cases hk : k = k'
    · subst hk
      have hnone : m.find? (fun p => p.1 = k) = none := by
        cases hmm : m.find? (fun p => p.1 = k) with
        | none => rfl
        | some q =>
          rw [hmm] at hfound
          simp at hfound
      rw [List.find?_append, hnone]
      simp [List.find?]
    · rw [List.find?_append]
      have hsing : ([(k', v)] : List (String × Nat)).find? (fun p => p.1 = k) = none := by
        have : ¬ ((k', v) : String × Nat).1 = k := fun h => hk (Eq.symm h)
        simp [List.find?, this]
      rw [hsing]
      simp [hk]

lemma recGet_recIncr (m : List (String × Nat)) (k' k : String) :
    recGet (recIncr m k') k = if k = k' then recGet m k + 1 else recGet m k := by
  unfold recIncr
  rw [recGet_recSet]
  by_cases hk : k = k' <;> simp [hk]

lemma recGet_fold (sels : List SelectionRow) (m : List (String × Nat)) (k : String) :
    recGet (sels.foldl (fun acc s => recIncr acc s.selectionValue) m) k =
      recGet m k + (sels.filter (fun s => s.selectionValue = k)).length := by
  induction sels generalizing m with
  | nil => simp
  | cons s rest ih =>
    simp only [List.foldl_cons]
    rw [ih, recGet_recIncr]
    by_cases hk : s.selectionValue = k
    · rw [if_pos (Eq.symm hk)]
      simp only [List.filter_cons, if_pos (decide_eq_true hk), List.length_cons]
      omega
    · rw [if_neg (fun h => hk (Eq.symm h))]
      simp only [List.filter_cons]
      rw [if_neg (by simpa using hk)]


lemma recIncr_cons_ne (p : String × Nat) (rest : List (String × Nat)) (k : String)
    (hp : ¬ p.1 = k) : recIncr (p :: rest) k = p :: recIncr rest k := by
  have hfind : (p :: rest).find? (fun q => q.1 = k) = rest.find? (fun q => q.1 = k) :=
    List.find?_cons_of_neg _ (by simpa using hp)
  unfold recIncr recGet recSet
  rw [hfind]
  by_cases hfound : (rest.find? (fun q => q.1 = k)).isSome = true
  · rw [if_pos hfound, if_pos hfound]
    simp [hp]
  · rw [if_neg hfound, if_neg hfound]
    simp

lemma recIncr_cons_eq (p : String × Nat) (rest : List (String × Nat)) (k : String)
    (hp : p.1 = k) (hrest : ∀ q ∈ rest, ¬ q.1 = k) :
    recIncr (p :: rest) k = (k, p.2 + 1) :: rest := by
  have hfind : (p :: rest).find? (fun q => q.1 = k) = some p :=
    List.find?_cons_of_pos _ (by simpa using hp)
  unfold recIncr recGet recSet
  rw [hfind]
  simp only [Option.isSome_some, if_true, List.map_cons, Option.map_some', Option.getD_some]
  rw [if_pos hp]
  have hmap : rest.map (fun q => if q.1 = k then (k, p.2 + 1) else q) = rest.map id := by
    refine List.map_congr_left ?_
    intro q hq
    simp [hrest q hq]
  rw [hmap, List.map_id]

lemma sumVals_recIncr (m : List (String × Nat)) (k : String)
    (h : (m.map (fun p => p.1)).Nodup) :
    sumVals (recIncr m k) = sumVals m + 1 := by
  induction m with
  | nil => simp [recIncr, recSet, recGet, sumVals, List.find?]
  | cons p rest ih =>
    by_cases hp : p.1 = k
    · have hrest : ∀ q ∈ rest, ¬ q.1 = k := by
        intro q hq hqk
        have h1 : p.1 ∉ rest.map (fun p => p.1) := (List.nodup_cons.mp (by simpa using h)).1
        exact h1 (by
          rw [hp, ← hqk]
          exact List.mem_map_of_mem _ hq)
      rw [recIncr_cons_eq p rest k hp hrest]
      simp [sumVals]
      omega
    · rw [recIncr_cons_ne p rest k hp]
      have h2 : (rest.map (fun p => p.1)).Nodup := (List.nodup_cons.mp (by simpa using h)).2
      simp only [sumVals, List.map_cons, List.sum_cons] at ih ⊢
      rw [ih h2]
      omega

lemma keys_recSet_map (m : List (String × Nat)) (k : String) (v : Nat)
    (hfound : (m.find? (fun p => p.1 = k)).isSome = true) :
    (recSet m k v).map (fun p => p.1) = m.map (fun p => p.1) := by
  unfold recSet
  rw [if_pos hfound, List.map_map]
  refine List.map_congr_left ?_
  intro q hq
  by_cases h : q.1 = k <;> simp [Function.comp, h]

lemma keysNodup_recSet (m : List (String × Nat)) (k : String) (v : Nat)
    (h : (m.map (fun p => p.1)).Nodup) :
    ((recSet m k v).map (fun p => p.1)).Nodup := by
  by_cases hfound : (m.find? (fun p => p.1 = k)).isSome = true
  · rw [keys_recSet_map m k v hfound]
    exact h
  · unfold recSet
    rw [if_neg hfound, List.map_append]
    have hnotin : k ∉ m.map (fun p => p.1) := by
      intro hk
      obtain ⟨q, hq, hqk⟩ := List.mem_map.mp hk
      have : m.find? (fun p => p.1 = k) = none := by
        cases hmm : m.find? (fun p => p.1 = k) with
        | none => rfl
        | some x =>
          rw [hmm] at hfound
          simp at hfound
      have hq2 : ¬ (decide (q.1 = k) = true) := List.find?_eq_none.mp this q hq
      simp only [decide_eq_true_eq] at hq2
      exact hq2 hqk
    simp [List.nodup_append, h, hnotin]

lemma keysNodup_recIncr (m : List (String × Nat)) (k : String)
    (h : (m.map (fun p => p.1)).Nodup) :
    ((recIncr m k).map (fun p => p.1)).Nodup :=
  keysNodup_recSet m k _ h

lemma sumVals_fold (sels : List SelectionRow) (m : List (String × Nat))
    (h : (m.map (fun p => p.1)).Nodup) :
    sumVals (sels.foldl (fun acc s => recIncr acc s.selectionValue) m) =
      sumVals m + sels.length := by
  induction sels generalizing m with
  | nil => simp
  | cons s rest ih =>
    simp only [List.foldl_cons, List.length_cons]
    rw [ih _ (keysNodup_recIncr m s.selectionValue h), sumVals_recIncr m s.selectionValue h]
    omega


lemma allZero_recSet (m : List (String × Nat)) (k : String)
    (h : ∀ p ∈ m, p.2 = 0) : ∀ p ∈ recSet m k 0, p.2 = 0 := by
  unfold recSet
  by_cases hfound : (m.find? (fun p => p.1 = k)).isSome = true
  · rw [if_pos hfound]
    intro p hp
    obtain ⟨q, hq, rfl⟩ := List.mem_map.mp hp
    by_cases hqk : q.1 = k
    · simp [hqk]
    · simp [hqk]
      exact h q hq
  · rw [if_neg hfound]
    intro p hp
    rcases List.mem_append.mp hp with hp | hp
    · exact h p hp
    · rw [List.mem_singleton.mp hp]

lemma allZero_initSummary (labels : List String) :
    ∀ p ∈ initSummary labels, p.2 = 0 := by
  unfold initSummary
  suffices hgen : ∀ (m : List (String × Nat)), (∀ p ∈ m, p.2 = 0) →
      ∀ p ∈ labels.foldl (fun m l => recSet m l 0) m, p.2 = 0 by
    exact hgen [] (by simp)
  induction labels with
  | nil => intro m hm; simpa using hm
  | cons x rest ih =>
    intro m hm
    simp only [List.foldl_cons]
    exact ih _ (allZero_recSet m x hm)

lemma recGet_initSummary (labels : List String) (k : String) :
    recGet (initSummary labels) k = 0 := by
  unfold recGet
  cases hf : (initSummary labels).find? (fun p => p.1 = k) with
  | none => rfl
  | some q =>
    have := allZero_initSummary labels q (List.mem_of_find?_eq_some hf)
    simp [this]

lemma sumVals_initSummary (labels : List String) : sumVals (initSummary labels) = 0 := by
  unfold sumVals
  refine List.sum_eq_zero ?_
  intro x hx
  obtain ⟨p, hp, rfl⟩ := List.mem_map.mp hx
  exact allZero_initSummary labels p hp

lemma keysNodup_initSummary (labels : List String) :
    ((initSummary labels).map (fun p => p.1)).Nodup := by
  unfold initSummary
  suffices hgen : ∀ (m : List (String × Nat)), (m.map (fun p => p.1)).Nodup →
      ((labels.foldl (fun m l => recSet m l 0) m).map (fun p => p.1)).Nodup by
    exact hgen [] (by simp)
  induction labels with
  | nil => intro m hm; simpa using hm
  | cons x rest ih =>
    intro m hm
    simp only [List.foldl_cons]
    exact ih _ (keysNodup_recSet m x 0 hm)

lemma recHas_recSet_self (m : List (String × Nat)) (k : String) (v : Nat) :
    ((recSet m k v).find? (fun p => p.1 = k)).isSome = true := by
  unfold recSet
  by_cases hfound : (m.find? (fun p => p.1 = k)).isSome = true
  · rw [if_pos hfound, List.find?_map, recSet_comp_fst]
    simpa using hfound
  · rw [if_neg hfound, List.find?_append]
    have hnone : m.find? (fun p => p.1 = k) = none := by
      cases hmm : m.find? (fun p => p.1 = k) with
      | none => rfl
      | some q =>
        rw [hmm] at hfound
        simp at hfound
    rw [hnone]
    simp [List.find?]

lemma recHas_recSet_mono (m : List (String × Nat)) (k' : String) (v : Nat) (k : String)
    (h : (m.find? (fun p => p.1 = k)).isSome = true) :
    ((recSet m k' v).find? (fun p => p.1 = k)).isSome = true := by
  unfold recSet
  by_cases hfound : (m.find? (fun p => p.1 = k')).isSome = true
  · rw [if_pos hfound, List.find?_map, recSet_comp_fst]
    simpa using h
  · rw [if_neg hfound, List.find?_append]
    cases hm : m.find? (fun p => p.1 = k) with
    | none =>
      rw [hm] at h
      simp at h
    | some q => simp

lemma recHas_initSummary (labels : List String) (k : String) (h : k ∈ labels) :
    ((initSummary labels).find? (fun p => p.1 = k)).isSome = true := by
  unfold initSummary
  suffices hgen : ∀ (m : List (String × Nat)),
      (k ∈ labels ∨ (m.find? (fun p => p.1 = k)).isSome = true) →
      ((labels.foldl (fun m l => recSet m l 0) m).find? (fun p => p.1 = k)).isSome = true by
    exact hgen [] (Or.inl h)
  clear h
  induction labels with
  | nil =>
    intro m hm
    rcases hm with hm | hm
    · simp at hm
    · simpa using hm
  | cons x rest ih =>
    intro m hm
    simp only [List.foldl_cons]
    rcases hm with hm | hm
    · rcases List.mem_cons.mp hm with rfl | hm
      · exact ih (recSet m k 0) (Or.inr (recHas_recSet_self m k 0))
      · exact ih (recSet m x 0) (Or.inl hm)
    · exact ih (recSet m x 0) (Or.inr (recHas_recSet_mono m x 0 k hm))

lemma recHas_fold (sels : List SelectionRow) (m : List (String × Nat)) (k : String)
    (h : (m.find? (fun p => p.1 = k)).isSome = true) :
    ((sels.foldl (fun acc s => recIncr acc s.selectionValue) m).find?
      (fun p => p.1 = k)).isSome = true := by
  induction sels generalizing m with
  | nil => simpa using h
  | cons s rest ih =>
    simp only [List.foldl_cons]
    exact ih _ (recHas_recSet_mono m s.selectionValue _ k h)

lemma recHas_buildSummary (labels : List String) (sels : List SelectionRow) (k : String)
    (h : k ∈ labels) :
    ((buildSummary labels sels).find? (fun p => p.1 = k)).isSome = true :=
  recHas_fold sels (initSummary labels) k (recHas_initSummary labels k h)

lemma recGet_buildSummary (labels : List String) (sels : List SelectionRow) (k : String) :
    recGet (buildSummary labels sels) k =
      (sels.filter (fun s => s.selectionValue = k)).length := by
  unfold buildSummary
  rw [recGet_fold, recGet_initSummary]
  omega

lemma sumVals_buildSummary (labels : List String) (sels : List SelectionRow) :
    sumVals (buildSummary labels sels) = sels.length := by
  unfold buildSummary
  rw [sumVals_fold sels (initSummary labels) (keysNodup_initSummary labels),
    sumVals_initSummary]
  omega


lemma filter_conj2 (l : List SelectionRow) (iid : String) (oid : Nat) :
    (l.filter (fun s => s.chooserId = iid)).filter (fun s => s.optionId = oid) =
      l.filter (fun s => s.chooserId = iid ∧ s.optionId = oid) := by
  rw [List.filter_filter]
  refine List.filter_congr ?_
  intro s _
  by_cases h1 : s.chooserId = iid <;> by_cases h2 : s.optionId = oid <;> simp [h1, h2]

lemma filter_conj3 (l : List SelectionRow) (iid : String) (oid : Nat) (lab : String) :
    (l.filter (fun s => s.chooserId = iid ∧ s.optionId = oid)).filter
        (fun s => s.selectionValue = lab) =
      l.filter (fun s => s.chooserId = iid ∧ s.optionId = oid ∧ s.selectionValue = lab) := by
  rw [List.filter_filter]
  refine List.filter_congr ?_
  intro s _
  by_cases h1 : s.chooserId = iid <;> by_cases h2 : s.optionId = oid <;>
    by_cases h3 : s.selectionValue = lab <;> simp [h1, h2, h3]

/-- C6: for every existing instance, getResults gives each option a tally
whose keys include every label of the instance (a label with no selections
has count 0, and in general a label's count is the number of that option's
stored selections carrying it); the counts of an option's tally sum to the
number of distinct participants who stored any selection for that option
(given the uniqueness of the `(chooser, option, participant)` key); options
are returned in ascending `order` and the participant list is the sorted
deduplicated set of participant names. -/
theorem c6_results_aggregation :
    ∀ (iid : String) (now : Nat) (db : DB) (r : InstanceRow) (v : ResultsView),
      db.instances.find? (fun x => x.id = iid) = some r →
      (getResults iid now db).1 = .resultsOk v →
      (∀ x ∈ v.options, ∀ l ∈ r.selectionLabels,
        ((x.summary.find? (fun p => p.1 = l)).isSome = true) ∧
        recGet x.summary l =
          (db.selections.filter (fun s =>
            s.chooserId = iid ∧ s.optionId = x.id ∧ s.selectionValue = l)).length) ∧
      (∀ x ∈ v.options,
        ((db.selections.filter (fun s =>
            s.chooserId = iid ∧ s.optionId = x.id)).map
          (fun s => s.participantName)).Nodup →
        sumVals x.summary =
          ((db.selections.filter (fun s =>
            s.chooserId = iid ∧ s.optionId = x.id)).map
            (fun s => s.participantName)).dedup.length) ∧
      List.Pairwise (fun a b => a.order ≤ b.order) v.options ∧
      v.participants.Nodup ∧
      List.Pairwise (fun a b => a ≤ b) v.participants ∧
      (∀ p, p ∈ v.participants ↔
        ∃ s ∈ db.selections, s.chooserId = iid ∧ s.participantName = p) := by
  intro iid now db r v hfind hv
  unfold getResults at hv
  rw [hfind] at hv
  dsimp only at hv
  simp only [V1Resp.resultsOk.injEq] at hv
  subst hv
  dsimp only
  have hpermSel : List.Perm
      (List.insertionSort (fun (a b : SelectionRow) => a.participantName ≤ b.participantName)
        (db.selections.filter (fun s => s.chooserId = iid)))
      (db.selections.filter (fun s => s.chooserId = iid)) :=
    List.perm_insertionSort _ _
  refine ⟨?_, ?_, ?_, ?_, ?_, ?_⟩
  · intro x hx l hl
    obtain ⟨o, ho, rfl⟩ := List.mem_map.mp hx
    dsimp only
    refine ⟨recHas_buildSummary _ _ l hl, ?_⟩
    rw [recGet_buildSummary]
    have h2 := ((hpermSel.filter (fun s => s.optionId = o.id)).filter
      (fun s => s.selectionValue = l)).length_eq
    rw [h2, filter_conj2, filter_conj3]
  · intro x hx hnd
    obtain ⟨o, ho, rfl⟩ := List.mem_map.mp hx
    dsimp only at hnd ⊢
    rw [sumVals_buildSummary]
    have h2 := (hpermSel.filter (fun s => s.optionId = o.id)).length_eq
    rw [h2, filter_conj2]
    rw [List.Nodup.dedup hnd, List.length_map]
  · rw [List.pairwise_map]
    have hs := List.sorted_insertionSort (fun (a b : OptionRow) => a.order ≤ b.order)
      (db.options.filter (fun o => o.chooserId = iid))
    exact hs
  · exact ((List.perm_insertionSort _ _).symm.nodup) (List.nodup_dedup _)
  · exact List.sorted_insertionSort _ _
  · intro p
    rw [(List.perm_insertionSort _ _).mem_iff, List.mem_dedup, List.mem_map]
    constructor
    · rintro ⟨s, hs, rfl⟩
      have hs2 := hpermSel.mem_iff.mp hs
      have hs3 := List.mem_filter.mp hs2
      exact ⟨s, hs3.1, by simpa using hs3.2, rfl⟩
    · rintro ⟨s, hs, hchooser, rfl⟩
      refine ⟨s, ?_, rfl⟩
      exact hpermSel.mem_iff.mpr (List.mem_filter.mpr ⟨hs, by simpa using hchooser⟩)


/-- C6 witness: the aggregation properties instantiated on the sample store
with one stored selection. -/
theorem c6_results_aggregation_witness :
    (∀ x ∈ sampleResultsView.options, ∀ l ∈ sampleInstance.selectionLabels,
      ((x.summary.find? (fun p => p.1 = l)).isSome = true) ∧
      recGet x.summary l =
        (sampleSelDB.selections.filter (fun s =>
          s.chooserId = "i1" ∧ s.optionId = x.id ∧ s.selectionValue = l)).length) ∧
    (∀ x ∈ sampleResultsView.options,
      ((sampleSelDB.selections.filter (fun s =>
          s.chooserId = "i1" ∧ s.optionId = x.id)).map
        (fun s => s.participantName)).Nodup →
      sumVals x.summary =
        ((sampleSelDB.selections.filter (fun s =>
          s.chooserId = "i1" ∧ s.optionId = x.id)).map
          (fun s => s.participantName)).dedup.length) ∧
    List.Pairwise (fun a b => a.order ≤ b.order) sampleResultsView.options ∧
    sampleResultsView.participants.Nodup ∧
    List.Pairwise (fun a b => a ≤ b) sampleResultsView.participants ∧
    (∀ p, p ∈ sampleResultsView.participants ↔
      ∃ s ∈ sampleSelDB.selections, s.chooserId = "i1" ∧ s.participantName = p) :=
  c6_results_aggregation "i1" 104 sampleSelDB sampleInstance sampleResultsView rfl rfl

end Chooser
